import Mathlib

/-!
Verification of the request-parameter normalization core of
`keylime/common.py`: `list_to_dict`, `get_restful_params`,
`valid_regex`, `valid_exclude_list` and `echo_json_response`.

The Python functions are shallowly embedded as executable Lean
definitions.  Python dictionaries (which preserve insertion order and
keep keys unique) are modelled as ordered association lists with an
update-in-place assignment operation.  The standard-library helpers the
source calls (`str.strip`, `str.split`, `urllib.parse.urlsplit`,
`urllib.parse.parse_qsl` with its default arguments, percent-decoding
with UTF-8 `errors=replace`, `re.compile`, `http.client.responses`) are
modelled from their documented Python semantics, as noted on each
definition.
-/

/-- An insertion-ordered Python dictionary whose values are
`str` or `None` (the value types that occur in `get_restful_params`). -/
abbrev PyDict := List (String × Option String)

/-- Python `d[k] = v` on an insertion-ordered dict: if the key is
present its value is replaced in place, otherwise the binding is
appended at the end. -/
def pyDictSet : PyDict → String → Option String → PyDict
  | [], k, v => [(k, v)]
  | p :: rest, k, v => if p.1 = k then (k, v) :: rest else p :: pyDictSet rest k v

/-- Python `d.get(k)` / `d[k]`: `none` when the key is absent,
`some v` when the key is bound to `v`. -/
def pyDictGet : PyDict → String → Option (Option String)
  | [], _ => none
  | p :: rest, k => if p.1 = k then some p.2 else pyDictGet rest k

/-- Python `d.update(pairs)`: successive `d[k] = v` assignments in
order. -/
def pyDictUpdate (d : PyDict) (pairs : PyDict) : PyDict :=
  pairs.foldl (fun acc p => pyDictSet acc p.1 p.2) d

/-- Lift a list of `str`-valued pairs (as returned by `parse_qsl`) to
dict-entry form. -/
def mapSome (qs : List (String × String)) : PyDict :=
  qs.map (fun p => (p.1, some p.2))

/-- The loop body of `common.list_to_dict`: starting from dict `d`,
walk the token list two at a time, assigning `d[list[i]] = list[i+1]`
(or `None` when `i+1` is out of range). -/
def list_to_dict_go : PyDict → List String → PyDict
  | d, [] => d
  | d, [k] => pyDictSet d k none
  | d, k :: v :: rest => list_to_dict_go (pyDictSet d k (some v)) rest

/-- `common.list_to_dict`: convert a list into a dictionary by grouping
`[k0, v0, k1, v1, ...]`; a trailing unpaired key is mapped to `None`. -/
def list_to_dict (tokens : List String) : PyDict :=
  list_to_dict_go [] tokens

/-- Python `s.strip("/")`: drop all leading and trailing `/`
characters. -/
def pyStripSlashes (s : String) : String :=
  String.mk (((s.data.dropWhile (fun c => c = '/')).reverse.dropWhile
    (fun c => c = '/')).reverse)

/-- Python `s.split(sep)` (no maxsplit): split at every occurrence of
the separator; the result is never empty and `"".split(sep) = [""]`. -/
def splitOnChar (sep : Char) : List Char → List (List Char)
  | [] => [[]]
  | c :: rest =>
    match splitOnChar sep rest with
    | [] => [[]]
    | t :: ts => if c = sep then [] :: t :: ts else (c :: t) :: ts

/-- Python `s.split(sep, 1)` restricted to the case where the separator
occurs: returns the parts before and after the first occurrence, or
`none` when the separator is absent. -/
def splitFirst (sep : Char) : List Char → Option (List Char × List Char)
  | [] => none
  | c :: rest =>
    if c = sep then some ([], rest)
    else
      match splitFirst sep rest with
      | none => none
      | some (a, b) => some (c :: a, b)

/-- Hexadecimal digit test, as in `urllib.parse` escape handling. -/
def isHexDigit (c : Char) : Bool :=
  decide ((48 ≤ c.toNat ∧ c.toNat ≤ 57) ∨ (97 ≤ c.toNat ∧ c.toNat ≤ 102)
    ∨ (65 ≤ c.toNat ∧ c.toNat ≤ 70))

/-- Value of a hexadecimal digit. -/
def hexVal (c : Char) : Nat :=
  if c.toNat ≤ 57 then c.toNat - 48
  else if c.toNat ≤ 70 then c.toNat - 65 + 10
  else c.toNat - 97 + 10

/-- First phase of `urllib.parse.unquote`: a `%` followed by two hex
digits becomes a raw byte; any other character (including a `%` not
followed by two hex digits) stays a literal character. -/
def unquoteTokensF : Nat → List Char → List (Char ⊕ Nat)
  | 0, _ => []
  | _ + 1, [] => []
  | fuel + 1, '%' :: c1 :: c2 :: rest =>
    if isHexDigit c1 && isHexDigit c2 then
      Sum.inr (16 * hexVal c1 + hexVal c2) :: unquoteTokensF fuel rest
    else
      Sum.inl '%' :: unquoteTokensF fuel (c1 :: c2 :: rest)
  | fuel + 1, c :: rest => Sum.inl c :: unquoteTokensF fuel rest

/-- Wrapper supplying the fuel: every step of `unquoteTokensF` consumes
at least one character, so `cs.length` steps always suffice. -/
def unquoteTokens (cs : List Char) : List (Char ⊕ Nat) :=
  unquoteTokensF cs.length cs

/-- The Unicode replacement character U+FFFD produced by the
`errors=replace` decoding policy. -/
def replChar : Char := Char.ofNat 0xFFFD

/-- UTF-8 decoding with Python's `errors="replace"` policy
(substitution of maximal subparts: every maximal ill-formed subsequence
becomes one U+FFFD). -/
def utf8DecodeReplaceF : Nat → List Nat → List Char
  | 0, _ => []
  | _ + 1, [] => []
  | fuel + 1, b :: rest =>
    if b < 0x80 then Char.ofNat b :: utf8DecodeReplaceF fuel rest
    else if 0xC2 ≤ b ∧ b ≤ 0xDF then
      match rest with
      | [] => [replChar]
      | b1 :: rest1 =>
        if 0x80 ≤ b1 ∧ b1 ≤ 0xBF then
          Char.ofNat ((b - 0xC0) * 0x40 + (b1 - 0x80)) :: utf8DecodeReplaceF fuel rest1
        else replChar :: utf8DecodeReplaceF fuel (b1 :: rest1)
    else if 0xE0 ≤ b ∧ b ≤ 0xEF then
      match rest with
      | [] => [replChar]
      | b1 :: rest1 =>
        if (b = 0xE0 ∧ 0xA0 ≤ b1 ∧ b1 ≤ 0xBF) ∨ (b = 0xED ∧ 0x80 ≤ b1 ∧ b1 ≤ 0x9F)
            ∨ (b ≠ 0xE0 ∧ b ≠ 0xED ∧ 0x80 ≤ b1 ∧ b1 ≤ 0xBF) then
          match rest1 with
          | [] => [replChar]
          | b2 :: rest2 =>
            if 0x80 ≤ b2 ∧ b2 ≤ 0xBF then
              Char.ofNat ((b - 0xE0) * 0x1000 + (b1 - 0x80) * 0x40 + (b2 - 0x80)) ::
                utf8DecodeReplaceF fuel rest2
            else replChar :: utf8DecodeReplaceF fuel (b2 :: rest2)
        else replChar :: utf8DecodeReplaceF fuel (b1 :: rest1)
    else if 0xF0 ≤ b ∧ b ≤ 0xF4 then
      match rest with
      | [] => [replChar]
      | b1 :: rest1 =>
        if (b = 0xF0 ∧ 0x90 ≤ b1 ∧ b1 ≤ 0xBF) ∨ (b = 0xF4 ∧ 0x80 ≤ b1 ∧ b1 ≤ 0x8F)
            ∨ (b ≠ 0xF0 ∧ b ≠ 0xF4 ∧ 0x80 ≤ b1 ∧ b1 ≤ 0xBF) then
          match rest1 with
          | [] => [replChar]
          | b2 :: rest2 =>
            if 0x80 ≤ b2 ∧ b2 ≤ 0xBF then
              match rest2 with
              | [] => [replChar]
              | b3 :: rest3 =>
                if 0x80 ≤ b3 ∧ b3 ≤ 0xBF then
                  Char.ofNat ((b - 0xF0) * 0x40000 + (b1 - 0x80) * 0x1000 +
                      (b2 - 0x80) * 0x40 + (b3 - 0x80)) :: utf8DecodeReplaceF fuel rest3
                else replChar :: utf8DecodeReplaceF fuel (b3 :: rest3)
            else replChar :: utf8DecodeReplaceF fuel (b2 :: rest2)
        else replChar :: utf8DecodeReplaceF fuel (b1 :: rest1)
    else replChar :: utf8DecodeReplaceF fuel rest

/-- Wrapper supplying the fuel: every step of `utf8DecodeReplaceF`
consumes at least one byte, so `bs.length` steps always suffice. -/
def utf8DecodeReplace (bs : List Nat) : List Char :=
  utf8DecodeReplaceF bs.length bs

/-- Second phase of `urllib.parse.unquote`: maximal runs of escape
bytes are collected and decoded as UTF-8 with `errors="replace"`;
literal characters pass through unchanged. -/
def decodeTokensGo : List (Char ⊕ Nat) → List Nat → List Char
  | [], buf => utf8DecodeReplace buf
  | Sum.inl c :: ts, buf => utf8DecodeReplace buf ++ c :: decodeTokensGo ts []
  | Sum.inr b :: ts, buf => decodeTokensGo ts (buf ++ [b])

/-- `urllib.parse.unquote(s, encoding="utf-8", errors="replace")`:
replace `%xx` escapes by the corresponding bytes and decode them with
the replacement policy. -/
def unquote (cs : List Char) : List Char :=
  decodeTokensGo (unquoteTokens cs) []

/-- The `s.replace("+", " ")` step `parse_qsl` applies before
unquoting. -/
def replacePlus (cs : List Char) : List Char :=
  cs.map (fun c => if c = '+' then ' ' else c)

/-- `urllib.parse.parse_qsl(qs)` with its default arguments
(`keep_blank_values=False`, `strict_parsing=False`, UTF-8 decoding with
`errors="replace"`): split the query on `&`, drop empty fragments,
drop fragments without `=` and fragments whose value is empty, and
plus/percent-decode each name and value.  With these defaults the
function never raises. -/
def parse_qsl (qs : String) : List (String × String) :=
  (splitOnChar '&' qs.data).filterMap (fun nv =>
    if nv = [] then none
    else
      match splitFirst '=' nv with
      | none => none
      | some (n, v) =>
        if v = [] then none
        else some (String.mk (unquote (replacePlus n)),
                   String.mk (unquote (replacePlus v))))

/-- Characters admissible in a URL scheme (`urllib.parse.scheme_chars`:
ASCII letters, digits, `+`, `-`, `.`). -/
def isSchemeChar (c : Char) : Bool :=
  c.isAlpha || c.isDigit || c == '+' || c == '-' || c == '.'

/-- The path and query components of `urllib.parse.urlsplit(url)`
(the only components `get_restful_params` reads): an eventual
`scheme:` prefix is removed when everything before the first `:` is
made of scheme characters, an eventual `//netloc` prefix is removed up
to the next `/`, `?` or `#`, the fragment is split off at the first
`#`, and the query at the first `?`. -/
def urlsplitPathQuery (url : String) : String × String :=
  let cs := url.data
  let cs1 :=
    match cs.findIdx? (fun c => c = ':') with
    | some i => if 0 < i ∧ (cs.take i).all isSchemeChar then cs.drop (i + 1) else cs
    | none => cs
  let cs2 :=
    if cs1.take 2 = ['/', '/'] then
      (cs1.drop 2).dropWhile (fun c => ¬(c = '/' ∨ c = '?' ∨ c = '#'))
    else cs1
  let cs3 :=
    match splitFirst '#' cs2 with
    | some (a, _) => a
    | none => cs2
  match splitFirst '?' cs3 with
  | some (p, q) => (String.mk p, String.mk q)
  | none => (String.mk cs3, "")

/-- The path component `get_restful_params` works on:
`urlsplit(urlstring.strip("/")).path`. -/
def pathOf (s : String) : String :=
  (urlsplitPathQuery (pyStripSlashes s)).1

/-- The query component `get_restful_params` works on:
`urlsplit(urlstring.strip("/")).query`. -/
def queryOf (s : String) : String :=
  (urlsplitPathQuery (pyStripSlashes s)).2

/-- `parsed_path.path.split("/")` in `get_restful_params`; never
empty. -/
def pathTokens (s : String) : List String :=
  (splitOnChar '/' (pathOf s).data).map String.mk

/-- `path_tokens[0]` in `get_restful_params` (the list returned by
`split` is never empty, so the default is never used). -/
def firstPathToken (s : String) : String :=
  (pathTokens s).headD ""

/-- `common.API_VERSION`, the current Keylime API version. -/
def API_VERSION : String := "2"

/-- The success path of `get_restful_params`: pair the remaining path
tokens, record the version under `"api_version"`, then merge the query
parameters with `dict.update` (later assignments overwrite earlier
bindings of the same name). -/
def assembleParams (tokens : List String) (ver : String)
    (qps : List (String × String)) : PyDict :=
  pyDictUpdate (pyDictSet (list_to_dict tokens) "api_version" (some ver)) (mapSome qps)

/-- `common.get_restful_params`: split the stripped URL string into
path and query, check an eventual two-character `v…` leading path
segment against `API_VERSION` (returning `None` on mismatch and
consuming the segment on match), pair the remaining path segments, and
merge in the query parameters. -/
def get_restful_params (urlstring : String) : Option PyDict :=
  if (firstPathToken urlstring).length = 2 ∧
      (firstPathToken urlstring).data.headD 'x' = 'v' then
    if String.mk [(firstPathToken urlstring).data.getD 1 'x'] ≠ API_VERSION then
      none
    else
      some (assembleParams (pathTokens urlstring).tail (firstPathToken urlstring)
        (parse_qsl (queryOf urlstring)))
  else
    some (assembleParams (pathTokens urlstring) API_VERSION
      (parse_qsl (queryOf urlstring)))

/-- A compiled pattern as returned by Python's `re.compile` (the
`re.Pattern` object, carrying the pattern it was compiled from). -/
structure RePattern where
  pattern : String
deriving DecidableEq

/-- Modelled from the spec: Python's `re.compile` (standard library,
not part of this repository) raises `re.error` on syntactically
invalid patterns — "a supplied regular expression fails to compile".
Modelled as a bracket-structure checker over the pattern: it reports
unbalanced parentheses, unterminated character classes and a trailing
escape (the failure modes exercised here), and accepts the rest.
Inside a character class `(`, `)` and `[` are literals; a `\` escapes
the next character. -/
def reCheck : List Char → Nat → Bool → Option String
  | [], d, inCls =>
    if inCls then some "unterminated character set"
    else if d = 0 then none
    else some "missing ), unterminated subpattern"
  | '\\' :: rest, d, inCls =>
    match rest with
    | [] => some "bad escape (end of pattern)"
    | _ :: rest2 => reCheck rest2 d inCls
  | c :: rest, d, inCls =>
    if inCls then
      if c = ']' then reCheck rest d false else reCheck rest d true
    else if c = '(' then reCheck rest (d + 1) false
    else if c = ')' then
      if d = 0 then some "unbalanced parenthesis" else reCheck rest (d - 1) false
    else if c = '[' then reCheck rest d true
    else reCheck rest d false

/-- `re.compile` as a fallible function: `re.error` becomes the
`Except.error` case carrying the diagnostic message (`regex_err.msg`). -/
def reCompile (pat : String) : Except String RePattern :=
  match reCheck pat.data 0 false with
  | none => Except.ok ⟨pat⟩
  | some msg => Except.error msg

/-- `common.valid_regex`: `None` is trivially valid; otherwise compile
the pattern, catching `re.error` and converting it into the
`(ok, compiled, error)` result triple. -/
def valid_regex (regex : Option String) : Bool × Option RePattern × Option String :=
  match regex with
  | none => (true, none, none)
  | some r =>
    match reCompile r with
    | Except.ok compiled_regex => (true, some compiled_regex, none)
    | Except.error msg => (false, none, some ("Invalid regex: " ++ msg ++ "."))

/-- `common.valid_exclude_list`: an empty (falsy) list is trivially
valid, otherwise all patterns are joined into the single alternation
`(p1)|(p2)|...` and delegated to `valid_regex`. -/
def valid_exclude_list (exclude_list : List String) :
    Bool × Option RePattern × Option String :=
  if exclude_list.isEmpty then (true, none, none)
  else valid_regex (some ("(" ++ String.intercalate ")|(" exclude_list ++ ")"))

/-- The `http.client.responses` reason-phrase table (Python 3.8
standard library). -/
def httpResponsesTable : List (Nat × String) :=
  [(100, "Continue"), (101, "Switching Protocols"), (102, "Processing"),
   (200, "OK"), (201, "Created"), (202, "Accepted"),
   (203, "Non-Authoritative Information"), (204, "No Content"),
   (205, "Reset Content"), (206, "Partial Content"), (207, "Multi-Status"),
   (208, "Already Reported"), (226, "IM Used"),
   (300, "Multiple Choices"), (301, "Moved Permanently"), (302, "Found"),
   (303, "See Other"), (304, "Not Modified"), (305, "Use Proxy"),
   (307, "Temporary Redirect"), (308, "Permanent Redirect"),
   (400, "Bad Request"), (401, "Unauthorized"), (402, "Payment Required"),
   (403, "Forbidden"), (404, "Not Found"), (405, "Method Not Allowed"),
   (406, "Not Acceptable"), (407, "Proxy Authentication Required"),
   (408, "Request Timeout"), (409, "Conflict"), (410, "Gone"),
   (411, "Length Required"), (412, "Precondition Failed"),
   (413, "Request Entity Too Large"), (414, "Request-URI Too Long"),
   (415, "Unsupported Media Type"), (416, "Requested Range Not Satisfiable"),
   (417, "Expectation Failed"), (421, "Misdirected Request"),
   (422, "Unprocessable Entity"), (423, "Locked"), (424, "Failed Dependency"),
   (426, "Upgrade Required"), (428, "Precondition Required"),
   (429, "Too Many Requests"), (431, "Request Header Fields Too Large"),
   (451, "Unavailable For Legal Reasons"),
   (500, "Internal Server Error"), (501, "Not Implemented"),
   (502, "Bad Gateway"), (503, "Service Unavailable"), (504, "Gateway Timeout"),
   (505, "HTTP Version Not Supported"), (506, "Variant Also Negotiates"),
   (507, "Insufficient Storage"), (508, "Loop Detected"),
   (510, "Not Extended"), (511, "Network Authentication Required")]

/-- Lookup in `http.client.responses`; a missing key raises `KeyError`
in Python, modelled by the `none` result. -/
def httpResponses (code : Nat) : Option String :=
  (httpResponsesTable.find? (fun p => p.1 == code)).map Prod.snd

/-- The runtime class of the `handler` argument of
`echo_json_response`: a `BaseHTTPRequestHandler`, a
`tornado.web.RequestHandler`, or any other (unsupported) object. -/
inductive HandlerKind
  | baseHTTP
  | tornado
  | unsupported
deriving DecidableEq

/-- One observable call on a response handler. -/
inductive WriteOp
  | sendResponse (code : Nat)
  | sendHeader (name value : String)
  | endHeaders
  | wfileWrite (body : String)
  | setStatus (code : Nat)
  | setHeader (name value : String)
  | write (body : String)
  | finish
deriving DecidableEq

/-- `json.dumps({'code': code, 'status': status, 'results': results})`
with default separators. -/
def jsonEnvelope (code : Nat) (status : String) (results : String) : String :=
  "\x7b\"code\": " ++ toString code ++ ", \"status\": \"" ++ status ++
    "\", \"results\": " ++ results ++ "\x7d"

/-- `common.echo_json_response`: returns `False` when the handler or
code is `None`; resolves a missing status via `http.client.responses`
(an unknown code raises `KeyError`, the `Except.error` case, before
any handler-protocol dispatch); then writes the JSON envelope through
the protocol matching the handler's class, returning `False` for
unsupported handler types.  The returned list records the calls made
on the handler, in order. -/
def echo_json_response (handler : Option HandlerKind) (code : Option Nat)
    (status : Option String) (results : Option String) :
    Except String (Bool × List WriteOp) :=
  match handler, code with
  | none, _ => Except.ok (false, [])
  | some _, none => Except.ok (false, [])
  | some hk, some c =>
    let statusResolved : Except String String :=
      match status with
      | some s => Except.ok s
      | none =>
        match httpResponses c with
        | some s => Except.ok s
        | none => Except.error ("KeyError: " ++ toString c)
    match statusResolved with
    | Except.error e => Except.error e
    | Except.ok st =>
      let res := results.getD "\x7b\x7d"
      let body := jsonEnvelope c st res
      match hk with
      | HandlerKind.baseHTTP =>
        Except.ok (true, [WriteOp.sendResponse c,
          WriteOp.sendHeader "Content-Type" "application/json",
          WriteOp.endHeaders, WriteOp.wfileWrite body])
      | HandlerKind.tornado =>
        Except.ok (true, [WriteOp.setStatus c,
          WriteOp.setHeader "Content-Type" "application/json",
          WriteOp.write body, WriteOp.finish])
      | HandlerKind.unsupported => Except.ok (false, [])

/-- The keys of a token sequence under pairing: the tokens at even
indices. -/
def pairKeys : List String → List String
  | [] => []
  | [k] => [k]
  | k :: _ :: rest => k :: pairKeys rest

/-- Pairing of a token sequence without the dict-collapse of repeated
keys: the result `list_to_dict` produces when all keys are distinct. -/
def naivePairs : List String → PyDict
  | [] => []
  | [k] => [(k, none)]
  | k :: v :: rest => (k, some v) :: naivePairs rest

/-- Flatten a parameter mapping back into the alternating
key/value token sequence (the spec's inverse of `ListPairer`); an
absent value contributes only its key. -/
def flattenPairs : PyDict → List String
  | [] => []
  | (k, none) :: rest => k :: flattenPairs rest
  | (k, some v) :: rest => k :: v :: flattenPairs rest

/-- The value of the last binding of a key in a key/value pair list
(what repeated `d[k] = v` assignments leave in place). -/
def lastAssocVal : List (String × String) → String → Option String
  | [], _ => none
  | p :: rest, k =>
    match lastAssocVal rest k with
    | some v => some v
    | none => if p.1 = k then some p.2 else none

/-! ## Dictionary lemmas -/

theorem pyDictGet_set_self (d : PyDict) (k : String) (v : Option String) :
    pyDictGet (pyDictSet d k v) k = some v := by
  induction d with
  | nil => simp [pyDictSet, pyDictGet]
  | cons p rest ih =>
    by_cases h : p.1 = k
    · simp [pyDictSet, pyDictGet, h]
    · simp [pyDictSet, pyDictGet, h, ih]

theorem pyDictGet_set_other (d : PyDict) (k k' : String) (v : Option String)
    (h : k' ≠ k) : pyDictGet (pyDictSet d k v) k' = pyDictGet d k' := by
  have hkk : ¬k = k' := fun he => h he.symm
  induction d with
  | nil => simp [pyDictSet, pyDictGet, hkk]
  | cons p rest ih =>
    by_cases hp : p.1 = k
    · have hpk : ¬p.1 = k' := by rw [hp]; exact hkk
      simp only [pyDictSet, if_pos hp, pyDictGet, if_neg hkk, if_neg hpk]
    · simp only [pyDictSet, if_neg hp, pyDictGet, ih]

theorem pyDictSet_not_mem (d : PyDict) (k : String) (v : Option String)
    (h : k ∉ d.map Prod.fst) : pyDictSet d k v = d ++ [(k, v)] := by
  induction d with
  | nil => simp [pyDictSet]
  | cons p rest ih =>
    simp only [List.map_cons, List.mem_cons] at h
    push_neg at h
    have hp : ¬p.1 = k := fun he => h.1 he.symm
    simp only [pyDictSet, if_neg hp, List.cons_append, ih h.2]

theorem list_to_dict_go_naive : ∀ (T : List String) (d : PyDict),
    (∀ k ∈ pairKeys T, k ∉ d.map Prod.fst) → (pairKeys T).Nodup →
    list_to_dict_go d T = d ++ naivePairs T
  | [], d, _, _ => by simp [list_to_dict_go, naivePairs]
  | [k], d, hdisj, _ => by
    simp only [list_to_dict_go, naivePairs]
    exact pyDictSet_not_mem d k none (hdisj k (by simp [pairKeys]))
  | k :: v :: rest, d, hdisj, hnodup => by
    have hk : k ∉ d.map Prod.fst := hdisj k (by simp [pairKeys])
    have hset : pyDictSet d k (some v) = d ++ [(k, some v)] :=
      pyDictSet_not_mem d k (some v) hk
    simp only [pairKeys, List.nodup_cons] at hnodup
    have hdisj' : ∀ k' ∈ pairKeys rest, k' ∉ (pyDictSet d k (some v)).map Prod.fst := by
      intro k' hk'
      rw [hset]
      simp only [List.map_append, List.mem_append, List.map_cons, List.map_nil,
        List.mem_cons, List.not_mem_nil]
      push_neg
      refine ⟨hdisj k' (by simp [pairKeys, hk']), ?_, fun h => h⟩
      intro he
      exact hnodup.1 (he ▸ hk')
    have hgo := list_to_dict_go_naive rest (pyDictSet d k (some v)) hdisj' hnodup.2
    have hstep : list_to_dict_go d (k :: v :: rest) =
        list_to_dict_go (pyDictSet d k (some v)) rest := rfl
    rw [hstep, hgo, hset, List.append_assoc]
    rfl

theorem naivePairs_length : ∀ T : List String,
    (naivePairs T).length = (T.length + 1) / 2
  | [] => by simp [naivePairs]
  | [_] => by simp [naivePairs]
  | _ :: _ :: rest => by
    simp only [naivePairs, List.length_cons, naivePairs_length rest]
    omega

theorem naivePairs_keys : ∀ T : List String,
    (naivePairs T).map Prod.fst = pairKeys T
  | [] => by simp [naivePairs, pairKeys]
  | [_] => by simp [naivePairs, pairKeys]
  | _ :: _ :: rest => by
    simp only [naivePairs, pairKeys, List.map_cons, naivePairs_keys rest]

theorem naivePairs_flatten_even : ∀ T : List String, T.length % 2 = 0 →
    flattenPairs (naivePairs T) = T
  | [], _ => by simp [naivePairs, flattenPairs]
  | [_], h => by simp at h
  | k :: v :: rest, h => by
    have hr : rest.length % 2 = 0 := by simp only [List.length_cons] at h; omega
    simp only [naivePairs, flattenPairs, naivePairs_flatten_even rest hr]

theorem list_to_dict_go_last_none : ∀ (T : List String) (d : PyDict),
    T.length % 2 = 1 →
    pyDictGet (list_to_dict_go d T) (T.getLastD "") = some none
  | [], _, h => by simp at h
  | [k], d, _ => by
    simp only [list_to_dict_go, List.getLastD]
    exact pyDictGet_set_self d k none
  | k :: v :: rest, d, h => by
    have hr : rest.length % 2 = 1 := by simp only [List.length_cons] at h; omega
    have hlast : (k :: v :: rest).getLastD "" = rest.getLastD "" := by
      cases rest with
      | nil => simp at hr
      | cons a l => simp [List.getLastD_cons]
    rw [list_to_dict_go, hlast]
    exact list_to_dict_go_last_none rest (pyDictSet d k (some v)) hr

/-! ## Merge-precedence lemmas -/

theorem pyDictUpdate_cons (d : PyDict) (p : String × String)
    (qs : List (String × String)) :
    pyDictUpdate d (mapSome (p :: qs)) =
      pyDictUpdate (pyDictSet d p.1 (some p.2)) (mapSome qs) := by
  simp [pyDictUpdate, mapSome]

theorem pyDictGet_update_not_bound : ∀ (qs : List (String × String)) (d : PyDict)
    (k : String), lastAssocVal qs k = none →
    pyDictGet (pyDictUpdate d (mapSome qs)) k = pyDictGet d k
  | [], d, k, _ => by simp [pyDictUpdate, mapSome]
  | p :: qs, d, k, h => by
    simp only [lastAssocVal] at h
    cases hq : lastAssocVal qs k with
    | some v => rw [hq] at h; exact absurd h (by simp)
    | none =>
      rw [hq] at h
      have hp : p.1 ≠ k := by
        intro he
        rw [if_pos he] at h
        exact absurd h (by simp)
      rw [pyDictUpdate_cons, pyDictGet_update_not_bound qs _ k hq]
      exact pyDictGet_set_other d p.1 k (some p.2) (fun he => hp he.symm)

theorem pyDictGet_update_last : ∀ (qs : List (String × String)) (d : PyDict)
    (k : String) (v : String), lastAssocVal qs k = some v →
    pyDictGet (pyDictUpdate d (mapSome qs)) k = some (some v)
  | [], _, k, v, h => by simp [lastAssocVal] at h
  | p :: qs, d, k, v, h => by
    simp only [lastAssocVal] at h
    cases hq : lastAssocVal qs k with
    | some w =>
      rw [hq] at h
      rw [pyDictUpdate_cons]
      exact pyDictGet_update_last qs _ k v (by rw [hq, ← h])
    | none =>
      rw [hq] at h
      have hp : p.1 = k := by
        by_contra hne
        rw [if_neg hne] at h
        exact absurd h (by simp)
      have hv : p.2 = v := by
        rw [if_pos hp] at h
        exact Option.some.inj h
      rw [pyDictUpdate_cons, pyDictGet_update_not_bound qs _ k hq, hp, hv]
      exact pyDictGet_set_self d k (some v)

theorem pyDictGet_assemble_last (tokens : List String) (ver : String)
    (qs : List (String × String)) (k v : String)
    (h : lastAssocVal qs k = some v) :
    pyDictGet (assembleParams tokens ver qs) k = some (some v) :=
  pyDictGet_update_last qs _ k v h

/-! ## Claim theorems -/

/-- Claim C1, counterexample: parsing `"/v2/agents/1234?verifier=v1"`
under current version `2` does not put the bare digit `"2"` under
`api_version`; the entry holds the whole consumed token `"v2"`. -/
theorem restful_example_api_version_token_cex :
    pyDictGet ((get_restful_params "/v2/agents/1234?verifier=v1").getD [])
      "api_version" = some (some "v2") ∧
    pyDictGet ((get_restful_params "/v2/agents/1234?verifier=v1").getD [])
      "api_version" ≠ some (some "2") := by
  exact ⟨by decide, by decide⟩

/-- Claim C1 (amended): `get_restful_params "/v2/agents/1234?verifier=v1"`
with current version `2` yields exactly the ordered map
`agents ↦ "1234", api_version ↦ "v2", verifier ↦ "v1"`: the
distinguished `api_version` entry holds the full consumed version
token `"v2"`, not the bare version digit. -/
theorem restful_example_api_version_token :
    get_restful_params "/v2/agents/1234?verifier=v1" =
      some [("agents", some "1234"), ("api_version", some "v2"),
            ("verifier", some "v1")] := by decide

/-- Claim C2, counterexample: the query `verifier=%ff` cannot be decoded
as UTF-8, yet `get_restful_params` does not surface any failure: the
bad escape is decoded to U+FFFD (`errors="replace"`) and a full
parameter map is returned. -/
theorem malformed_query_decoded_with_replacement_cex :
    get_restful_params "/v2/agents/1234?verifier=%ff" =
      some [("agents", some "1234"), ("api_version", some "v2"),
            ("verifier", some "�")] := by decide

/-- Claim C2 (amended): there is no malformed-query failure in
`get_restful_params`: undecodable bytes in the query are silently
replaced and parsing succeeds; the only input on which the parser
returns its failure sentinel `none` is a leading two-character `v…`
path segment whose second character is not the current API version. -/
theorem get_restful_params_none_only_on_version_mismatch (s : String)
    (h : get_restful_params s = none) :
    (firstPathToken s).length = 2 ∧ (firstPathToken s).data.headD 'x' = 'v' ∧
      String.mk [(firstPathToken s).data.getD 1 'x'] ≠ API_VERSION := by
  by_cases h1 : (firstPathToken s).length = 2 ∧
      (firstPathToken s).data.headD 'x' = 'v'
  · by_cases h2 : String.mk [(firstPathToken s).data.getD 1 'x'] ≠ API_VERSION
    · exact ⟨h1.1, h1.2, h2⟩
    · unfold get_restful_params at h
      rw [if_pos h1, if_neg h2] at h
      exact absurd h (by simp)
  · unfold get_restful_params at h
    rw [if_neg h1] at h
    exact absurd h (by simp)

/-- Witness for the C2 theorem at the concrete input `"v9/x"`, the
only kind of input that produces `none`. -/
theorem get_restful_params_none_only_on_version_mismatch_witness :
    (firstPathToken "v9/x").length = 2 ∧
      (firstPathToken "v9/x").data.headD 'x' = 'v' ∧
      String.mk [(firstPathToken "v9/x").data.getD 1 'x'] ≠ API_VERSION :=
  get_restful_params_none_only_on_version_mismatch "v9/x" (by decide)

/-- Claim C3 (confirmed): whenever the first path segment is exactly two
characters long, starts with `v`, and its second character differs from
the current API version constant, `get_restful_params` returns the
failure sentinel `none` and no partial parameter map. -/
theorem version_mismatch_returns_none (s : String)
    (h1 : (firstPathToken s).length = 2)
    (h2 : (firstPathToken s).data.headD 'x' = 'v')
    (h3 : String.mk [(firstPathToken s).data.getD 1 'x'] ≠ API_VERSION) :
    get_restful_params s = none := by
  unfold get_restful_params
  rw [if_pos (And.intro h1 h2), if_pos h3]

/-- Witness for the C3 theorem: `"/v9/agents/1234"` under current
version `2` fails. -/
theorem version_mismatch_returns_none_witness :
    get_restful_params "/v9/agents/1234" = none :=
  version_mismatch_returns_none "/v9/agents/1234" (by decide) (by decide)
    (by decide)

/-- Claim C4, counterexample: the even-length sequence
`["a","1","a","2"]` (length `2 * 2`) repeats the key `"a"`, so
`list_to_dict` collapses it to a single entry and flattening the result
does not restore the original sequence. -/
theorem list_to_dict_even_roundtrip_cex :
    (["a", "1", "a", "2"] : List String).length = 2 * 2 ∧
    (list_to_dict ["a", "1", "a", "2"]).length ≠ 2 ∧
    flattenPairs (list_to_dict ["a", "1", "a", "2"]) ≠ ["a", "1", "a", "2"] := by
  exact ⟨rfl, by decide, by decide⟩

/-- Claim C4 (amended): for every token sequence of even length `2 * n`
whose even-indexed key tokens are pairwise distinct, `list_to_dict`
produces a mapping with exactly `n` entries whose keys appear in the
original order, and flattening the mapping back into an alternating
key/value sequence restores the original sequence; with repeated keys
the dictionary collapses entries (see the counterexample). -/
theorem list_to_dict_even_roundtrip (T : List String) (n : Nat)
    (hlen : T.length = 2 * n) (hnodup : (pairKeys T).Nodup) :
    (list_to_dict T).length = n ∧
    (list_to_dict T).map Prod.fst = pairKeys T ∧
    flattenPairs (list_to_dict T) = T := by
  have hgo := list_to_dict_go_naive T [] (by simp) hnodup
  unfold list_to_dict
  rw [hgo, List.nil_append]
  refine ⟨?_, naivePairs_keys T, naivePairs_flatten_even T (by omega)⟩
  rw [naivePairs_length]
  omega

/-- Witness for the C4 theorem at `["a","1","b","2"]`. -/
theorem list_to_dict_even_roundtrip_witness :
    (list_to_dict ["a", "1", "b", "2"]).length = 2 ∧
    (list_to_dict ["a", "1", "b", "2"]).map Prod.fst =
      pairKeys ["a", "1", "b", "2"] ∧
    flattenPairs (list_to_dict ["a", "1", "b", "2"]) = ["a", "1", "b", "2"] :=
  list_to_dict_even_roundtrip ["a", "1", "b", "2"] 2 (by decide) (by decide)

/-- Claim C5 (confirmed): `valid_regex` never lets a compile error
escape: an absent pattern yields `(true, none, none)`, and every
pattern string yields either `(true, some compiled, none)` or
`(false, none, some msg)` with a non-empty message derived from the
compiler diagnostic — exactly one of the compiled pattern and the
error message is set. -/
theorem valid_regex_result_shape :
    valid_regex none = (true, none, none) ∧
    ∀ s : String,
      (∃ c, valid_regex (some s) = (true, some c, none)) ∨
      (∃ e, valid_regex (some s) = (false, none, some e) ∧ e ≠ "") := by
  refine ⟨rfl, fun s => ?_⟩
  cases hc : reCompile s with
  | ok c => exact Or.inl ⟨c, by simp [valid_regex, hc]⟩
  | error msg =>
    refine Or.inr ⟨"Invalid regex: " ++ msg ++ ".", by simp [valid_regex, hc], ?_⟩
    intro he
    have h0 : ("Invalid regex: " ++ msg ++ ".").length = 0 := by rw [he]; rfl
    rw [String.length_append, String.length_append] at h0
    have h1 : ("Invalid regex: " : String).length = 15 := rfl
    have h2 : ("." : String).length = 1 := rfl
    omega

/-- Claim C6, counterexample: with an unsupported handler, no explicit
status and a code absent from the reason-phrase table,
`echo_json_response` raises `KeyError` instead of returning `False`
without raising. -/
theorem echo_json_response_unsupported_raises_cex :
    echo_json_response (some HandlerKind.unsupported) (some 599) none none =
      Except.error ("KeyError: " ++ toString 599) ∧
    (Except.error ("KeyError: " ++ toString 599) :
      Except String (Bool × List WriteOp)) ≠ Except.ok (false, []) := by
  exact ⟨rfl, by simp⟩

/-- Claim C6 (amended): `echo_json_response` returns `False` with no
write attempted when the handler or the status code is `None`; and for
a non-`None` handler of an unsupported type it returns `False` with no
write, provided the status-resolution step succeeds (an explicit status
was passed, or the code has a standard reason phrase) — otherwise the
`KeyError` of the reason-phrase lookup fires first (counterexample). -/
theorem echo_json_response_failure_paths :
    (∀ code status results,
      echo_json_response none code status results = Except.ok (false, [])) ∧
    (∀ handler status results,
      echo_json_response handler none status results = Except.ok (false, [])) ∧
    (∀ c status results,
      status.isSome = true ∨ (httpResponses c).isSome = true →
      echo_json_response (some HandlerKind.unsupported) (some c) status results =
        Except.ok (false, [])) := by
  refine ⟨fun code status results => rfl, fun handler status results => ?_, ?_⟩
  · cases handler <;> rfl
  · intro c status results h
    cases status with
    | some s => rfl
    | none =>
      cases hr : httpResponses c with
      | some s => simp [echo_json_response, hr]
      | none => simp [hr] at h

/-- Witness for the C6 theorem: an unsupported handler with code `200`
(whose reason phrase exists) reports failure with no write. -/
theorem echo_json_response_failure_paths_witness :
    echo_json_response (some HandlerKind.unsupported) (some 200) none none =
      Except.ok (false, []) :=
  echo_json_response_failure_paths.2.2 200 none none (Or.inr rfl)

/-- Claim C7 (confirmed): in every successfully parsed map, query-string
entries are merged after path-derived entries, so any key bound in the
query string ends up with its (last) query value, overwriting a
path-derived binding of the same name. -/
theorem query_overwrites_path (s : String) (m : PyDict) (k v : String)
    (hm : get_restful_params s = some m)
    (hv : lastAssocVal (parse_qsl (queryOf s)) k = some v) :
    pyDictGet m k = some (some v) := by
  unfold get_restful_params at hm
  by_cases h1 : (firstPathToken s).length = 2 ∧
      (firstPathToken s).data.headD 'x' = 'v'
  · rw [if_pos h1] at hm
    by_cases h2 : String.mk [(firstPathToken s).data.getD 1 'x'] ≠ API_VERSION
    · rw [if_pos h2] at hm
      exact absurd hm (by simp)
    · rw [if_neg h2] at hm
      rw [← Option.some.inj hm]
      exact pyDictGet_assemble_last _ _ _ k v hv
  · rw [if_neg h1] at hm
    rw [← Option.some.inj hm]
    exact pyDictGet_assemble_last _ _ _ k v hv

/-- Witness for the C7 theorem: in `"v2/agents/1234?agents=99"` the
query value `99` overwrites the path-derived `agents ↦ 1234`. -/
theorem query_overwrites_path_witness :
    pyDictGet [("agents", some "99"), ("api_version", some "v2")] "agents" =
      some (some "99") :=
  query_overwrites_path "v2/agents/1234?agents=99"
    [("agents", some "99"), ("api_version", some "v2")] "agents" "99"
    (by decide) (by decide)

/-- Claim C8, counterexample: the odd-length sequence `["a","1","a"]`
(length `2 * 1 + 1`) repeats its key, so the result has a single entry,
not `ceil(3/2) = 2`. -/
theorem list_to_dict_odd_count_cex :
    (["a", "1", "a"] : List String).length = 2 * 1 + 1 ∧
    (list_to_dict ["a", "1", "a"]).length ≠ 1 + 1 := by
  exact ⟨rfl, by decide⟩

/-- Claim C8 (amended): for every odd-length token sequence the final
token is mapped, as a key, to the explicit absent value `None` (never
dropped, never an error); and provided the key tokens are pairwise
distinct the mapping has exactly `ceil(len/2) = n + 1` entries
(repeated keys collapse, see the counterexample). -/
theorem list_to_dict_odd_spec (T : List String) (n : Nat)
    (hlen : T.length = 2 * n + 1) :
    pyDictGet (list_to_dict T) (T.getLastD "") = some none ∧
    ((pairKeys T).Nodup → (list_to_dict T).length = n + 1) := by
  constructor
  · exact list_to_dict_go_last_none T [] (by omega)
  · intro hnodup
    have hgo := list_to_dict_go_naive T [] (by simp) hnodup
    unfold list_to_dict
    rw [hgo, List.nil_append, naivePairs_length]
    omega

/-- Witness for the C8 theorem at `["a","1","c"]`. -/
theorem list_to_dict_odd_spec_witness :
    pyDictGet (list_to_dict ["a", "1", "c"])
      ((["a", "1", "c"] : List String).getLastD "") = some none ∧
    (list_to_dict ["a", "1", "c"]).length = 1 + 1 :=
  ⟨(list_to_dict_odd_spec ["a", "1", "c"] 1 (by decide)).1,
   (list_to_dict_odd_spec ["a", "1", "c"] 1 (by decide)).2 (by decide)⟩

/-- Claim C9 (confirmed): `valid_exclude_list` is trivially valid on the
empty list, and on every non-empty list returns exactly the result of
`valid_regex` applied to the alternation `(p1)|(p2)|...`; in particular
`["a.*b", "c+"]` compiles to the pattern `(a.*b)|(c+)` and `["("]`
yields `ok = false` with a non-empty error message. -/
theorem valid_exclude_list_spec :
    valid_exclude_list [] = (true, none, none) ∧
    (∀ l : List String, l ≠ [] →
      valid_exclude_list l =
        valid_regex (some ("(" ++ String.intercalate ")|(" l ++ ")"))) ∧
    valid_exclude_list ["a.*b", "c+"] = (true, some ⟨"(a.*b)|(c+)"⟩, none) ∧
    (valid_exclude_list ["("]).1 = false ∧
    (valid_exclude_list ["("]).2.1 = none ∧
    (valid_exclude_list ["("]).2.2 =
      some "Invalid regex: missing ), unterminated subpattern." ∧
    "Invalid regex: missing ), unterminated subpattern." ≠ "" := by
  refine ⟨rfl, fun l hl => ?_, by decide, rfl, rfl, rfl, by decide⟩
  unfold valid_exclude_list
  have hne : ¬l.isEmpty = true := by simpa using hl
  rw [if_neg hne]

/-- Witness for the C9 theorem: the singleton list delegates to the
single-pattern validator on its alternation. -/
theorem valid_exclude_list_spec_witness :
    valid_exclude_list ["x"] =
      valid_regex (some ("(" ++ String.intercalate ")|(" ["x"] ++ ")")) :=
  valid_exclude_list_spec.2.1 ["x"] (by decide)

/-- Claim C10 (confirmed): when the status is omitted and the code has
no entry in the standard reason-phrase table, `echo_json_response`
raises `KeyError` — for every handler kind, hence before any
handler-protocol dispatch — instead of reporting failure through its
boolean result. -/
theorem echo_json_response_keyerror (hk : HandlerKind) (c : Nat)
    (results : Option String) (h : httpResponses c = none) :
    echo_json_response (some hk) (some c) none results =
      Except.error ("KeyError: " ++ toString c) := by
  cases hk <;> simp [echo_json_response, h]

/-- Witness for the C10 theorem: code `999` with an unsupported handler
raises `KeyError: 999`. -/
theorem echo_json_response_keyerror_witness :
    echo_json_response (some HandlerKind.unsupported) (some 999) none none =
      Except.error ("KeyError: " ++ toString 999) :=
  echo_json_response_keyerror HandlerKind.unsupported 999 none rfl
